import Mathlib

/-!
Shallow embedding of `polars-core/src/chunked_array/logical/categorical/stringcache.rs`.

The Rust module maintains a process-global string cache for categorical
columns: an atomic activation flag `USE_STRING_CACHE`, and a mutex-guarded
`StringCache` holding an `SCacheInner` with a hash map from `StrHashGlobal`
keys to `u32` codes together with a `uuid` epoch (nanoseconds since
`UNIX_EPOCH` captured at construction of the inner state).

The embedding passes the global state explicitly.  Calls to
`SystemTime::now()` are modelled by a `now : Nat` parameter giving the
nanosecond timestamp the clock returns at that call.
-/

/-- Embeds `StrHashGlobal`: an owned string with a precomputed 64-bit hash
(`pub struct StrHashGlobal { str: SmartString<LazyCompact>, hash: u64 }`).
The `hash` field carries the value of the Rust `u64`. -/
structure StrHashGlobal where
  str : String
  hash : Nat
deriving DecidableEq, Repr

/-- Embeds `StrHashGlobal::new(s, hash)`. -/
def StrHashGlobal.new (s : String) (hash : Nat) : StrHashGlobal :=
  { str := s, hash := hash }

/-- Embeds `impl PartialEq for StrHashGlobal`:
`(self.hash == other.hash) && (self.str == other.str)`. -/
def StrHashGlobal.beq (self other : StrHashGlobal) : Bool :=
  (self.hash == other.hash) && (self.str == other.str)

/-- A `Hasher` state, recording the sequence of `u64` values written into it
via `write_u64`. -/
structure HasherState where
  writes : List Nat
deriving DecidableEq, Repr

/-- Embeds `Hasher::write_u64`: appends one 64-bit value to the hasher
stream. -/
def HasherState.write_u64 (st : HasherState) (v : Nat) : HasherState :=
  { writes := st.writes ++ [v] }

/-- Embeds `impl Hash for StrHashGlobal`: `state.write_u64(self.hash)`. -/
def StrHashGlobal.hashImpl (self : StrHashGlobal) (st : HasherState) : HasherState :=
  st.write_u64 self.hash

/-- The cache mapping `PlHashMap<StrHashGlobal, u32>`, embedded as an
association list whose keys are compared with `StrHashGlobal.beq`. -/
abbrev PlHashMap : Type := List (StrHashGlobal × Nat)

/-- Modelled from the spec: map insertion is performed by the
categorical-column collaborator through the lock and the backing hash-map
implementation is outside this fragment; per the collaborator contract it
replaces the code of an existing equal key or else adds a new entry, only
touching the mapping. -/
def PlHashMap.insert (m : PlHashMap) (k : StrHashGlobal) (code : Nat) : PlHashMap :=
  match m with
  | [] => [(k, code)]
  | e :: rest =>
      if StrHashGlobal.beq e.1 k then (e.1, code) :: rest
      else e :: PlHashMap.insert rest k code

/-- Modelled from the spec: lookup by a bare string view (via
`Borrow<str>` on `StrHashGlobal`), returning the code of the entry whose
string content equals `s`, if any. -/
def PlHashMap.getStr (m : PlHashMap) (s : String) : Option Nat :=
  match m with
  | [] => none
  | e :: rest => if e.1.str == s then some e.2 else PlHashMap.getStr rest s

/-- Embeds `SCacheInner`: the mutex-protected inner state, a mapping from
keys to codes plus the `uuid` epoch. -/
structure SCacheInner where
  map : PlHashMap
  uuid : Nat
deriving DecidableEq

/-- Embeds `impl Default for SCacheInner`: an empty map and
`uuid = SystemTime::now().duration_since(UNIX_EPOCH).unwrap().as_nanos()`;
`now` is the nanosecond timestamp the clock returns at this construction. -/
def SCacheInner.mkDefault (now : Nat) : SCacheInner :=
  { map := [], uuid := now }

/-- Embeds `StringCache::clear`: under the lock, `*lock = Default::default()`,
replacing the whole inner state with a fresh one built at clock value
`now`. -/
def StringCache.clear (now : Nat) (inner : SCacheInner) : SCacheInner :=
  SCacheInner.mkDefault now

/-- The explicit global state: the `USE_STRING_CACHE` atomic flag and the
inner state of the `STRING_CACHE` singleton. -/
structure CacheState where
  useStringCache : Bool
  cache : SCacheInner
deriving DecidableEq

/-- Embeds `toggle_string_cache(toggle)`:
`USE_STRING_CACHE.store(toggle); if !toggle { STRING_CACHE.clear() }`.
`now` is the clock value at the (possible) clear. -/
def toggle_string_cache (toggle : Bool) (now : Nat) (s : CacheState) : CacheState :=
  let s1 : CacheState := { s with useStringCache := toggle }
  if !toggle then { s1 with cache := StringCache.clear now s1.cache } else s1

/-- Embeds `reset_string_cache()`: `STRING_CACHE.clear()` and nothing else. -/
def reset_string_cache (now : Nat) (s : CacheState) : CacheState :=
  { s with cache := StringCache.clear now s.cache }

/-- Embeds `use_string_cache()`: `USE_STRING_CACHE.load(...)`. -/
def use_string_cache (s : CacheState) : Bool :=
  s.useStringCache

/-- Embeds `with_string_cache(func)` for an operation that completes
normally: `toggle_string_cache(true); let out = func(); toggle_string_cache(false); out`.
The operation is state-passing; `t1` and `t2` are the clock values at the two
toggles. -/
def with_string_cache {T : Type} (func : CacheState → CacheState × T) (t1 t2 : Nat)
    (s : CacheState) : CacheState × T :=
  let s1 := toggle_string_cache true t1 s
  let r := func s1
  let s3 := toggle_string_cache false t2 r.1
  (s3, r.2)

/-- Embeds the control flow of `with_string_cache(func)` when the operation
may fail (panic / unwind): `let out = func();` propagates the failure to the
caller immediately, so `toggle_string_cache(false)` on the next line runs
only when `func` returned normally. -/
def with_string_cache_exc {T E : Type} (func : CacheState → CacheState × Except E T)
    (t1 t2 : Nat) (s : CacheState) : CacheState × Except E T :=
  let s1 := toggle_string_cache true t1 s
  match func s1 with
  | (s2, Except.error e) => (s2, Except.error e)
  | (s2, Except.ok out) => (toggle_string_cache false t2 s2, Except.ok out)

/-- Modelled from the spec: an insert performed by a collaborator while
holding the lock mutates only the mapping inside the inner state. -/
def insert_string (k : StrHashGlobal) (code : Nat) (s : CacheState) : CacheState :=
  { s with cache := { s.cache with map := PlHashMap.insert s.cache.map k code } }

/-- C1: for every operation `func` that completes normally,
`with_string_cache func` returns exactly the result `func` produced, and in
the state after the call the activation flag is false and the cache mapping
is empty. -/
theorem c1_with_string_cache_normal {T : Type} (func : CacheState → CacheState × T)
    (t1 t2 : Nat) (s : CacheState) :
    (with_string_cache func t1 t2 s).2 = (func (toggle_string_cache true t1 s)).2
      ∧ use_string_cache (with_string_cache func t1 t2 s).1 = false
      ∧ (with_string_cache func t1 t2 s).1.cache.map = [] := by
  refine ⟨rfl, rfl, rfl⟩

/-- C2: disabling via `toggle_string_cache false` empties the mapping, so any
string inserted before (here `k` with code `code`) is afterwards absent under
lookup by any string `q`, while `toggle_string_cache true` leaves the inner
state, and hence all existing mapping contents, unchanged. -/
theorem c2_toggle_clear_vs_preserve (s : CacheState) (k : StrHashGlobal) (code : Nat)
    (now : Nat) (q : String) :
    PlHashMap.getStr (toggle_string_cache false now (insert_string k code s)).cache.map q
        = none
      ∧ (toggle_string_cache true now s).cache = s.cache := by
  refine ⟨rfl, rfl⟩

/-- C3: evaluated at a concrete failing operation, `with_string_cache` as
written in the source propagates the failure without running the
disable-and-clear: the activation flag is still true afterwards, the mapping
still holds the entry inserted before the failure, and the error reaches the
caller. -/
theorem c3_failing_op_leaves_cache_enabled :
    use_string_cache
        (with_string_cache_exc
          (fun s => (insert_string (StrHashGlobal.new "red" 7) 0 s,
            (Except.error "boom" : Except String Unit))) 1 2
          { useStringCache := false, cache := { map := [], uuid := 0 } }).1 = true
      ∧ (with_string_cache_exc
          (fun s => (insert_string (StrHashGlobal.new "red" 7) 0 s,
            (Except.error "boom" : Except String Unit))) 1 2
          { useStringCache := false, cache := { map := [], uuid := 0 } }).1.cache.map
        = [(StrHashGlobal.new "red" 7, 0)]
      ∧ (with_string_cache_exc
          (fun s => (insert_string (StrHashGlobal.new "red" 7) 0 s,
            (Except.error "boom" : Except String Unit))) 1 2
          { useStringCache := false, cache := { map := [], uuid := 0 } }).2
        = Except.error "boom" := by
  refine ⟨rfl, rfl, rfl⟩

/-- C4: `clear` replaces the inner state wholesale with the default inner
state built at the current clock value, which is an empty mapping paired with
the nanosecond timestamp as epoch; both `toggle_string_cache false` and
`reset_string_cache` perform exactly this clear on the inner state. -/
theorem c4_clear_replaces_state (inner : SCacheInner) (s : CacheState) (now : Nat) :
    StringCache.clear now inner = SCacheInner.mkDefault now
      ∧ SCacheInner.mkDefault now = { map := [], uuid := now }
      ∧ (reset_string_cache now s).cache = StringCache.clear now s.cache
      ∧ (toggle_string_cache false now s).cache = StringCache.clear now s.cache := by
  refine ⟨rfl, rfl, rfl, rfl⟩

/-- C5: two `StrHashGlobal` keys with equal precomputed hash fields but
different string content are not equal under the `PartialEq` implementation. -/
theorem c5_equal_hash_different_str_not_equal (a b : StrHashGlobal)
    (hh : a.hash = b.hash) (hs : a.str ≠ b.str) :
    StrHashGlobal.beq a b = false := by
  unfold StrHashGlobal.beq
  simp [hh, hs]

/-- C5 witness: concrete keys sharing hash 7 with different strings compare
unequal. -/
theorem c5_witness :
    (StrHashGlobal.new "red" 7).hash = (StrHashGlobal.new "blue" 7).hash
      ∧ (StrHashGlobal.new "red" 7).str ≠ (StrHashGlobal.new "blue" 7).str
      ∧ StrHashGlobal.beq (StrHashGlobal.new "red" 7) (StrHashGlobal.new "blue" 7) = false :=
  ⟨rfl, by decide,
    c5_equal_hash_different_str_not_equal (StrHashGlobal.new "red" 7)
      (StrHashGlobal.new "blue" 7) rfl (by decide)⟩

/-- C6 counterexample: the claim says every clear or disable produces a
changed epoch, but the fresh epoch is just the clock reading at the clear; if
the clock returns the same nanosecond value as the stored epoch (coarse or
adjusted clock), the epoch after `clear` equals the epoch before it. -/
theorem c6_counterexample :
    (StringCache.clear 5 { map := [], uuid := 5 }).uuid
      = ({ map := [], uuid := 5 } : SCacheInner).uuid := rfl

/-- C6 amended: an insert through the lock never touches the epoch field, and
a clear or disable replaces the epoch with the clock value at that call, so
the epoch changes whenever that clock value differs from the stored epoch
(strict change is not guaranteed when the clock repeats a reading). -/
theorem c6_epoch_behaviour (s : CacheState) (k : StrHashGlobal) (code : Nat)
    (now : Nat) (h : now ≠ s.cache.uuid) :
    (insert_string k code s).cache.uuid = s.cache.uuid
      ∧ (StringCache.clear now s.cache).uuid ≠ s.cache.uuid
      ∧ (toggle_string_cache false now s).cache.uuid ≠ s.cache.uuid := by
  refine ⟨rfl, h, h⟩

/-- C6 witness: from epoch 5, clearing or disabling at clock value 6 changes
the epoch and an insert does not. -/
theorem c6_witness :
    (6 : Nat) ≠ ({ useStringCache := true, cache := { map := [], uuid := 5 } }
        : CacheState).cache.uuid
      ∧ ((insert_string (StrHashGlobal.new "red" 7) 0
          { useStringCache := true, cache := { map := [], uuid := 5 } }).cache.uuid = 5
        ∧ (StringCache.clear 6
            ({ useStringCache := true, cache := { map := [], uuid := 5 } }
              : CacheState).cache).uuid ≠ 5
        ∧ (toggle_string_cache false 6
            { useStringCache := true, cache := { map := [], uuid := 5 } }).cache.uuid ≠ 5) :=
  ⟨by decide,
    c6_epoch_behaviour { useStringCache := true, cache := { map := [], uuid := 5 } }
      (StrHashGlobal.new "red" 7) 0 6 (by decide)⟩

/-- C7: `reset_string_cache` replaces the inner state (mapping emptied, epoch
replaced by the clock value) while leaving the activation flag exactly as it
was before the call, whatever its prior value. -/
theorem c7_reset_preserves_flag (s : CacheState) (now : Nat) :
    (reset_string_cache now s).useStringCache = s.useStringCache
      ∧ (reset_string_cache now s).cache = SCacheInner.mkDefault now := by
  refine ⟨rfl, rfl⟩

/-- C8: hashing a `StrHashGlobal` writes exactly its precomputed hash field
into the hasher and nothing else, so the hasher output never depends on the
string content. -/
theorem c8_hash_writes_only_hash_field (k : StrHashGlobal) (st : HasherState)
    (s1 s2 : String) (h : Nat) :
    (StrHashGlobal.hashImpl k st).writes = st.writes ++ [k.hash]
      ∧ StrHashGlobal.hashImpl (StrHashGlobal.new s1 h) st
        = StrHashGlobal.hashImpl (StrHashGlobal.new s2 h) st := by
  refine ⟨rfl, rfl⟩

/-- C9: two `StrHashGlobal` keys with identical string content but different
precomputed hash fields are not equal under the `PartialEq` implementation. -/
theorem c9_same_str_different_hash_not_equal (s : String) (h1 h2 : Nat)
    (hne : h1 ≠ h2) :
    StrHashGlobal.beq (StrHashGlobal.new s h1) (StrHashGlobal.new s h2) = false := by
  unfold StrHashGlobal.beq StrHashGlobal.new
  simp [hne]

/-- C9 witness: keys with the same string "red" but hashes 7 and 8 compare
unequal. -/
theorem c9_witness :
    (7 : Nat) ≠ 8
      ∧ StrHashGlobal.beq (StrHashGlobal.new "red" 7) (StrHashGlobal.new "red" 8) = false :=
  ⟨by decide, c9_same_str_different_hash_not_equal "red" 7 8 (by decide)⟩

/-- C10: `toggle_string_cache false` clears unconditionally: whatever the
prior flag value and prior contents (the empty mapping included), the result
has the flag false, an empty mapping, and the clock value at the call as the
fresh epoch. -/
theorem c10_toggle_false_unconditional_clear (s : CacheState) (now : Nat) :
    toggle_string_cache false now s
      = { useStringCache := false, cache := { map := [], uuid := now } } := by
  rfl
